import Mathlib

/-!
Shallow embedding of the real-time bus-tracking system (`server.py`,
`fake_bus.py`).  Inbound websocket frames carry JSON documents; the server
validates them with pydantic v1 models (`Bus`, `BrowserWindowMessage`),
maintains an in-memory store of last-known bus positions, tracks a
per-connection viewport, and periodically broadcasts the buses inside the
viewport.  The producer side (`fake_bus.py`) multiplexes many simulated buses
over a fixed pool of websocket connections chosen with `itertools.cycle`.

Modelling conventions:
* JSON numbers (Python floats/ints) are modelled as exact rationals `ℚ`.
* A received text frame is modelled as `Option JVal`: `some v` is the decoded
  JSON document, `none` a frame that is not valid JSON (for which pydantic
  `parse_raw` raises a `ValidationError` at loc `__root__`,
  type `value_error.jsondecode`; the position-dependent decoder message is
  abstracted to a fixed string).
* `jobj` models a decoded Python dict: keys are unique and looked up by name.
-/

/-- A decoded JSON document. -/
inductive JVal where
  | jnull : JVal
  | jbool : Bool → JVal
  | jnum : ℚ → JVal
  | jstr : String → JVal
  | jarr : List JVal → JVal
  | jobj : List (String × JVal) → JVal

/-- Dict lookup on a decoded JSON object. -/
def lookupField (fs : List (String × JVal)) (name : String) : Option JVal :=
  match fs with
  | [] => none
  | p :: rest => if p.1 = name then some p.2 else lookupField rest name

/-! ### Python `float(str)` (used by pydantic's float validator) -/

/-- Is the character an ASCII decimal digit? -/
def isAsciiDigit (c : Char) : Bool :=
  decide ('0' ≤ c) && decide (c ≤ '9')

/-- Are all characters ASCII decimal digits? -/
def allDigits (l : List Char) : Bool := l.all isAsciiDigit

/-- Numeric value of a digit string. -/
def digitsVal (l : List Char) : ℕ :=
  l.foldl (fun a c => 10 * a + (c.toNat - '0'.toNat)) 0

/-- Strip one optional leading sign; `true` means negative. -/
def parseSign : List Char → Bool × List Char
  | '+' :: rest => (false, rest)
  | '-' :: rest => (true, rest)
  | l => (false, l)

/-- Mantissa of a Python float literal: digits with an optional single dot,
at least one digit overall. -/
def parseMantissa (l : List Char) : Option ℚ :=
  match l.splitOn '.' with
  | [ip] =>
      if allDigits ip && !ip.isEmpty then some (digitsVal ip : ℚ) else none
  | [ip, fp] =>
      if allDigits ip && allDigits fp && !(ip.isEmpty && fp.isEmpty) then
        some ((digitsVal ip : ℚ) + (digitsVal fp : ℚ) / (10 : ℚ) ^ fp.length)
      else none
  | _ => none

/-- Exponent part of a Python float literal: optional sign, nonempty digits. -/
def parseExp (l : List Char) : Option ℤ :=
  let (neg, ds) := parseSign l
  if allDigits ds && !ds.isEmpty then
    some (if neg then -(digitsVal ds : ℤ) else (digitsVal ds : ℤ))
  else none

/-- Python `float(s)` on a string, as an exact rational: strips surrounding
whitespace, accepts an optional sign, a decimal mantissa and an optional
exponent.  (`inf`/`nan` and digit underscores are not modelled.) -/
def pyFloat? (s : String) : Option ℚ :=
  let stripped := ((s.toList.dropWhile Char.isWhitespace).reverse.dropWhile
    Char.isWhitespace).reverse
  let cs := stripped.map Char.toLower
  let (neg, rest) := parseSign cs
  let value? : Option ℚ :=
    match rest.splitOn 'e' with
    | [m] => parseMantissa m
    | [m, ex] => do
        let qm ← parseMantissa m
        let qe ← parseExp ex
        pure (qm * (10 : ℚ) ^ qe)
    | _ => none
  value?.map (fun q => if neg then -q else q)

/-! ### Validation errors (`format_errors`) -/

/-- One pydantic validation error, as serialized by `format_errors`:
`{'loc': ..., 'msg': ..., 'type': ...}`. -/
structure ErrorEntry where
  loc : List String
  msg : String
  type : String
deriving DecidableEq

/-- The Errors message `format_errors` builds from a `ValidationError`:
`{'msgType': 'Errors', 'errors': [{'loc': ..., 'msg': ..., 'type': ...} ...]}`. -/
structure ErrorsMessage where
  msgType : String
  errors : List ErrorEntry
deriving DecidableEq

/-- `format_errors`: wrap the list of pydantic errors in an Errors message. -/
def format_errors (errs : List ErrorEntry) : ErrorsMessage :=
  { msgType := "Errors"
    errors := errs.map (fun err => { loc := err.loc, msg := err.msg, type := err.type }) }

/-- The `ValidationError` pydantic `parse_raw` raises on undecodable JSON. -/
def jsonDecodeError : ErrorEntry :=
  { loc := ["__root__"], msg := "Invalid JSON", type := "value_error.jsondecode" }

/-! ### The `Bus` pydantic model and `validate_bus` -/

/-- `Bus`: information about a bus (`busId: str, lat: float, lng: float,
route: str`). -/
structure Bus where
  busId : String
  lat : ℚ
  lng : ℚ
  route : String
deriving DecidableEq

/-- Pydantic v1 float-field coercion: floats/ints are taken as-is, bools count
as 0/1 (Python `float(bool)`), and strings go through Python `float(str)`. -/
def floatCoerce : JVal → Option ℚ
  | .jnum q => some q
  | .jbool b => some (if b then 1 else 0)
  | .jstr s => pyFloat? s
  | _ => none

/-- Singleton error list of a field check, empty when the check passed. -/
def errList {α : Type} : Except ErrorEntry α → List ErrorEntry
  | .error e => [e]
  | .ok _ => []

/-- Did a field check pass? -/
def exceptOk {α : Type} : Except ErrorEntry α → Bool
  | .error _ => false
  | .ok _ => true

/-- Number of times `p` divides `n`, with the fuel bounded by `n` itself. -/
def countFactor (fuel p n : ℕ) : ℕ :=
  match fuel with
  | 0 => 0
  | fuel + 1 => if 2 ≤ p ∧ n ≠ 0 ∧ n % p = 0 then countFactor fuel p (n / p) + 1 else 0

/-- Python `str()` of a decoded JSON number, under the rational model: the
numerator alone when the denominator is 1 (a decoded JSON integer), the exact
terminating decimal otherwise (a decoded JSON float: every JSON numeric
literal has a denominator dividing a power of ten).  A decoded integer-valued
float (Python would print `5.0`) is conflated with the integer, and rationals
outside the image of JSON decoding fall back to a fraction rendering. -/
def pyNumStr (q : ℚ) : String :=
  if q.den = 1 then toString q.num
  else
    let a := countFactor q.den 2 q.den
    let b := countFactor q.den 5 q.den
    let k := max a b
    if q.den = 2 ^ a * 5 ^ b then
      let scaled := q.num.natAbs * 10 ^ k / q.den
      let digits := toString (scaled % 10 ^ k)
      (if q.num < 0 then "-" else "") ++ toString (scaled / 10 ^ k) ++ "." ++
        String.mk (List.replicate (k - digits.length) '0' ++ digits.toList)
    else toString q.num ++ "/" ++ toString q.den

/-- Pydantic v1 validation of a required `str` field (`str_validator`):
strings pass through; numbers and bools are coerced with Python `str()`
(bool being an `int` subclass in Python); `null`, arrays and objects are
rejected with `str type expected`. -/
def checkStrField (fs : List (String × JVal)) (name : String) : Except ErrorEntry String :=
  match lookupField fs name with
  | none => .error { loc := [name], msg := "field required", type := "value_error.missing" }
  | some (.jstr s) => .ok s
  | some (.jnum q) => .ok (pyNumStr q)
  | some (.jbool b) => .ok (if b then "True" else "False")
  | some _ => .error { loc := [name], msg := "str type expected", type := "type_error.str" }

/-- Pydantic v1 validation of a required `float` field; `pre` is the location
prefix of the enclosing model (empty at top level, `["data"]` inside
`BrowserWindowMessage.data`). -/
def checkFloatField (pre : List String) (fs : List (String × JVal)) (name : String) :
    Except ErrorEntry ℚ :=
  match lookupField fs name with
  | none => .error { loc := pre ++ [name], msg := "field required", type := "value_error.missing" }
  | some v =>
      match floatCoerce v with
      | some q => .ok q
      | none => .error { loc := pre ++ [name], msg := "value is not a valid float",
                         type := "type_error.float" }

/-- All field errors of a `Bus` validation, in field-declaration order
(`busId`, `lat`, `lng`, `route`), as pydantic v1 collects them. -/
def busErrors (fs : List (String × JVal)) : List ErrorEntry :=
  errList (checkStrField fs "busId") ++ errList (checkFloatField [] fs "lat") ++
    errList (checkFloatField [] fs "lng") ++ errList (checkStrField fs "route")

/-- `Bus.parse_obj`: validate a decoded JSON document against the `Bus` model.
Extra fields are ignored (pydantic v1 default). -/
def Bus.parse_obj (v : JVal) : Except (List ErrorEntry) Bus :=
  match v with
  | .jobj fs =>
      match checkStrField fs "busId", checkFloatField [] fs "lat",
          checkFloatField [] fs "lng", checkStrField fs "route" with
      | .ok b, .ok la, .ok ln, .ok rt => .ok { busId := b, lat := la, lng := ln, route := rt }
      | _, _, _, _ => .error (busErrors fs)
  | _ => .error [{ loc := ["__root__"], msg := "value is not a valid dict",
                   type := "type_error.dict" }]

/-- `validate_bus`: parse a raw frame as a `Bus`; returns the pair
`(bus, errors)` of which exactly one is `some`. -/
def validate_bus (frame : Option JVal) : Option Bus × Option ErrorsMessage :=
  match frame with
  | none => (none, some (format_errors [jsonDecodeError]))
  | some v =>
      match Bus.parse_obj v with
      | .ok bus => (some bus, none)
      | .error errs => (none, some (format_errors errs))

/-! ### The position store (`_buses_data`) and `handle_bus` -/

/-- The in-memory position store `_buses_data`: a dict from `busId` to the
last accepted `Bus`, in insertion order. -/
abbrev BusStore := List (String × Bus)

/-- Dict lookup in the store. -/
def storeLookup (st : BusStore) (key : String) : Option Bus :=
  match st with
  | [] => none
  | p :: rest => if p.1 = key then some p.2 else storeLookup rest key

/-- Python dict assignment `_buses_data[key] = bus`: replace the value of an
existing key in place, otherwise append a new entry. -/
def storeUpsert (st : BusStore) (key : String) (bus : Bus) : BusStore :=
  if st.any (fun p => decide (p.1 = key)) then
    st.map (fun p => if p.1 = key then (key, bus) else p)
  else st ++ [(key, bus)]

/-- One iteration of the `handle_bus` receive loop: validate the frame; on
errors reply with the Errors message and leave the store untouched, otherwise
store the bus under its `busId`.  (The `(none, none)` case never arises:
`validate_bus` yields a bus exactly when it yields no errors.) -/
def handle_bus_step (st : BusStore) (frame : Option JVal) : BusStore × Option ErrorsMessage :=
  match validate_bus frame with
  | (_, some errs) => (st, some errs)
  | (some bus, none) => (storeUpsert st bus.busId bus, none)
  | (none, none) => (st, none)

/-- The `handle_bus` loop over a whole sequence of received frames (the loop
only ends when the transport closes, never because of a frame's content):
final store plus every Errors reply sent, in order. -/
def handle_bus_run (st : BusStore) : List (Option JVal) → BusStore × List ErrorsMessage
  | [] => (st, [])
  | f :: fs =>
      let step := handle_bus_step st f
      let rest := handle_bus_run step.1 fs
      (rest.1, step.2.toList ++ rest.2)

/-! ### The browser side: `WindowBound`, `BrowserWindowMessage`,
`validate_window_bounds`, `listen_to_browser`, `tell_to_browser` -/

/-- `WindowBound`: map bounds, the user cannot see beyond the border. -/
structure WindowBound where
  north_lat : ℚ
  south_lat : ℚ
  west_lng : ℚ
  east_lng : ℚ
deriving DecidableEq

/-- `WindowBound.is_inside`: is the point inside current bounds?
(`south_lat < lat < north_lat and west_lng < lng < east_lng`). -/
def WindowBound.is_inside (w : WindowBound) (lat lng : ℚ) : Bool :=
  let inside_lat := decide (w.south_lat < lat) && decide (lat < w.north_lat)
  let inside_lng := decide (w.west_lng < lng) && decide (lng < w.east_lng)
  inside_lat && inside_lng

/-- `WindowBound.is_bus_inside`: is the bus visible with current bounds? -/
def WindowBound.is_bus_inside (w : WindowBound) (bus : Bus) : Bool :=
  w.is_inside bus.lat bus.lng

/-- `WindowBound.update`: overwrite all four bounds. -/
def WindowBound.update (w : WindowBound) (north_lat south_lat west_lng east_lng : ℚ) :
    WindowBound :=
  { w with north_lat := north_lat, south_lat := south_lat,
           west_lng := west_lng, east_lng := east_lng }

/-- `BrowserWindowMessage`: validated incoming data from a user. -/
structure BrowserWindowMessage where
  msgType : String
  data : WindowBound

/-- The `check_msg_type` pre-validator followed by `msgType: str` validation:
a missing field is `field required`; any present value other than the string
`"newBounds"` makes the validator raise `ValueError('Wrong message type')`. -/
def checkMsgType (fs : List (String × JVal)) : Except ErrorEntry String :=
  match lookupField fs "msgType" with
  | none => .error { loc := ["msgType"], msg := "field required", type := "value_error.missing" }
  | some (.jstr s) =>
      if s = "newBounds" then .ok s
      else .error { loc := ["msgType"], msg := "Wrong message type", type := "value_error" }
  | some _ => .error { loc := ["msgType"], msg := "Wrong message type", type := "value_error" }

/-- Validation of the nested `data: WindowBound` field: required, must be a
dict, with four required float sub-fields located at `data.<field>`. -/
def checkWindowData (fs : List (String × JVal)) : Except (List ErrorEntry) WindowBound :=
  match lookupField fs "data" with
  | none => .error [{ loc := ["data"], msg := "field required", type := "value_error.missing" }]
  | some (.jobj dfs) =>
      match checkFloatField ["data"] dfs "north_lat", checkFloatField ["data"] dfs "south_lat",
          checkFloatField ["data"] dfs "west_lng", checkFloatField ["data"] dfs "east_lng" with
      | .ok n, .ok s, .ok w, .ok e =>
          .ok { north_lat := n, south_lat := s, west_lng := w, east_lng := e }
      | rN, rS, rW, rE => .error (errList rN ++ errList rS ++ errList rW ++ errList rE)
  | some _ => .error [{ loc := ["data"], msg := "value is not a valid dict",
                        type := "type_error.dict" }]

/-- Error list of the `data` check, empty when it passed. -/
def dataErrList : Except (List ErrorEntry) WindowBound → List ErrorEntry
  | .error es => es
  | .ok _ => []

/-- `BrowserWindowMessage.parse_obj`: validate a decoded JSON document against
the `BrowserWindowMessage` model (fields `msgType`, `data`, in order). -/
def BrowserWindowMessage.parse_obj (v : JVal) : Except (List ErrorEntry) BrowserWindowMessage :=
  match v with
  | .jobj fs =>
      match checkMsgType fs, checkWindowData fs with
      | .ok t, .ok d => .ok { msgType := t, data := d }
      | _, _ => .error (errList (checkMsgType fs) ++ dataErrList (checkWindowData fs))
  | _ => .error [{ loc := ["__root__"], msg := "value is not a valid dict",
                   type := "type_error.dict" }]

/-- `validate_window_bounds`: parse a raw frame as a `BrowserWindowMessage`
and keep its `data`; returns `(new_window, errors)` of which exactly one is
`some`. -/
def validate_window_bounds (frame : Option JVal) : Option WindowBound × Option ErrorsMessage :=
  match frame with
  | none => (none, some (format_errors [jsonDecodeError]))
  | some v =>
      match BrowserWindowMessage.parse_obj v with
      | .ok m => (some m.data, none)
      | .error errs => (none, some (format_errors errs))

/-- One iteration of the `listen_to_browser` receive loop: validate the frame;
on errors reply with the Errors message and keep the current bounds, otherwise
update the bounds with all four fields of the new window. -/
def listen_to_browser_step (w : WindowBound) (frame : Option JVal) :
    WindowBound × Option ErrorsMessage :=
  match validate_window_bounds frame with
  | (_, some errs) => (w, some errs)
  | (some nw, none) =>
      (w.update nw.north_lat nw.south_lat nw.west_lng nw.east_lng, none)
  | (none, none) => (w, none)

/-- The `listen_to_browser` loop over a sequence of received frames: final
bounds plus every Errors reply sent, in order. -/
def listen_to_browser_run (w : WindowBound) :
    List (Option JVal) → WindowBound × List ErrorsMessage
  | [] => (w, [])
  | f :: fs =>
      let step := listen_to_browser_step w f
      let rest := listen_to_browser_run step.1 fs
      (rest.1, step.2.toList ++ rest.2)

/-- The window of the most recently validated frame of a sequence, if any. -/
def last_validated_window (frames : List (Option JVal)) : Option WindowBound :=
  match frames with
  | [] => none
  | f :: fs =>
      match last_validated_window fs with
      | some nw => some nw
      | none => (validate_window_bounds f).1

/-- The viewport `handle_browser` installs when a user connects:
`WindowBound(north_lat=0, south_lat=0, west_lng=0, east_lng=0)`. -/
def initial_window_boundaries : WindowBound :=
  { north_lat := 0, south_lat := 0, west_lng := 0, east_lng := 0 }

/-- The periodic snapshot message sent to a viewer. -/
structure BusesMessage where
  msgType : String
  buses : List Bus
deriving DecidableEq

/-- One tick of `tell_to_browser`: the `Buses` message holding every stored
bus inside the current bounds. -/
def tell_to_browser_msg (w : WindowBound) (st : BusStore) : BusesMessage :=
  { msgType := "Buses"
    buses := (st.map Prod.snd).filter (fun bus => w.is_bus_inside bus) }

/-! ### The producer side (`fake_bus.py`) -/

/-- `generate_bus_id`: the f-string `f'{prefix}{route_id}-{bus_index}'`. -/
def generate_bus_id (route_id : String) (bus_index : ℕ) (pfx : String) : String :=
  pfx ++ route_id ++ "-" ++ toString bus_index

/-- The bus ids `main` spawns, in spawn order: for each loaded route, one bus
per `buses_per_route` index. -/
def spawn_order (routeNames : List String) (buses_per_route : ℕ) (pfx : String) : List String :=
  routeNames.flatMap (fun rn =>
    (List.range buses_per_route).map (fun bus_num => generate_bus_id rn bus_num pfx))

/-- The `j`-th element drawn from `itertools.cycle` of a list: the underlying
list repeated endlessly.  Channels are identified by their index in
`send_channels`. -/
def cycle_nth (send_channels : List ℕ) (j : ℕ) : ℕ :=
  send_channels.getD (j % send_channels.length) 0

/-- The slot assignment `main` performs: spawn every bus in order, handing the
`j`-th spawned bus the `j`-th channel drawn from
`cycle(send_channels)` where `send_channels` has `n` members. -/
def main_assignment (routeNames : List String) (buses_per_route n : ℕ) (pfx : String) :
    List (String × ℕ) :=
  (spawn_order routeNames buses_per_route pfx).enum.map
    (fun p => (p.2, cycle_nth (List.range n) p.1))

/-- The `k`-th coordinate `run_bus` visits: first the tail of the route from
`start_offset`, then the whole route over and over. -/
def run_bus_coord (route : List (ℚ × ℚ)) (start_offset k : ℕ) : Option (ℚ × ℚ) :=
  let tail := route.drop start_offset
  if h : k < tail.length then some (tail.get ⟨k, h⟩)
  else
    if h2 : 0 < route.length then
      some (route.get ⟨(k - tail.length) % route.length, Nat.mod_lt _ h2⟩)
    else none

/-- A position message built by `run_bus`. -/
structure BusMessage where
  busId : String
  lat : ℚ
  lng : ℚ
  route : String
deriving DecidableEq

/-- The `k`-th hand-off `run_bus` performs: the message for the `k`-th visited
coordinate, sent into the one channel the bus was given at spawn time
(channels are identified by index). -/
def run_bus_emit (ch : ℕ) (bus_id route_name : String) (route : List (ℚ × ℚ))
    (start_offset k : ℕ) : Option (ℕ × BusMessage) :=
  (run_bus_coord route start_offset k).map
    (fun c => (ch, { busId := bus_id, lat := c.1, lng := c.2, route := route_name }))

/-- The `Bus` fields whose checks fail on a given decoded object, in
field-declaration order. -/
def bus_offending_fields (fs : List (String × JVal)) : List String :=
  (if exceptOk (checkStrField fs "busId") then [] else ["busId"]) ++
    (if exceptOk (checkFloatField [] fs "lat") then [] else ["lat"]) ++
    (if exceptOk (checkFloatField [] fs "lng") then [] else ["lng"]) ++
    (if exceptOk (checkStrField fs "route") then [] else ["route"])

/-- Does the decoded object carry `msgType` equal to the literal string
`"newBounds"`?  (What the `check_msg_type` pre-validator tests.) -/
def msgTypeIsNewBounds (fs : List (String × JVal)) : Bool :=
  match lookupField fs "msgType" with
  | some (.jstr s) => decide (s = "newBounds")
  | _ => false

/-! ## Lemmas -/

theorem format_errors_msgType (errs : List ErrorEntry) :
    (format_errors errs).msgType = "Errors" := rfl

theorem format_errors_errors (errs : List ErrorEntry) :
    (format_errors errs).errors = errs := by
  simp [format_errors]

theorem validate_bus_pair (frame : Option JVal) :
    (∃ bus, validate_bus frame = (some bus, none)) ∨
      (∃ errs, validate_bus frame = (none, some (format_errors errs))) := by
  rcases frame with _ | v
  · exact .inr ⟨[jsonDecodeError], rfl⟩
  · rcases hp : Bus.parse_obj v with errs | bus
    · exact .inr ⟨errs, by simp [validate_bus, hp]⟩
    · exact .inl ⟨bus, by simp [validate_bus, hp]⟩

theorem handle_bus_step_invalid (st : BusStore) (frame : Option JVal) (e : ErrorsMessage)
    (h : (validate_bus frame).2 = some e) : handle_bus_step st frame = (st, some e) := by
  rcases hv : validate_bus frame with ⟨b, r⟩
  rw [hv] at h
  simp only at h
  subst h
  simp [handle_bus_step, hv]

theorem handle_bus_step_valid (st : BusStore) (frame : Option JVal) (bus : Bus)
    (h : (validate_bus frame).1 = some bus) :
    handle_bus_step st frame = (storeUpsert st bus.busId bus, none) := by
  rcases validate_bus_pair frame with ⟨b, hb⟩ | ⟨errs, he⟩
  · rw [hb] at h
    simp only [Option.some.injEq] at h
    subst h
    simp [handle_bus_step, hb]
  · rw [he] at h
    simp at h

theorem storeLookup_map_replace (st : BusStore) (key : String) (bus : Bus)
    (h : st.any (fun p => decide (p.1 = key)) = true) :
    storeLookup (st.map (fun p => if p.1 = key then (key, bus) else p)) key = some bus := by
  induction st with
  | nil => simp at h
  | cons p rest ih =>
    rw [List.map_cons]
    by_cases hp : p.1 = key
    · rw [if_pos hp]
      simp [storeLookup]
    · rw [if_neg hp]
      have h2 : rest.any (fun p => decide (p.1 = key)) = true := by
        simpa [List.any_cons, hp] using h
      simp [storeLookup, hp, ih h2]

theorem storeLookup_append_new (st : BusStore) (key : String) (bus : Bus)
    (h : st.any (fun p => decide (p.1 = key)) = false) :
    storeLookup (st ++ [(key, bus)]) key = some bus := by
  induction st with
  | nil => simp [storeLookup]
  | cons p rest ih =>
    rw [List.any_cons, Bool.or_eq_false_iff] at h
    have hp : ¬(p.1 = key) := by simpa using h.1
    simp [storeLookup, hp, ih h.2]

theorem storeLookup_storeUpsert (st : BusStore) (key : String) (bus : Bus) :
    storeLookup (storeUpsert st key bus) key = some bus := by
  unfold storeUpsert
  by_cases hany : st.any (fun p => decide (p.1 = key)) = true
  · rw [if_pos hany]
    exact storeLookup_map_replace st key bus hany
  · rw [if_neg hany]
    exact storeLookup_append_new st key bus (Bool.eq_false_iff.mpr hany)

theorem is_inside_iff (w : WindowBound) (lat lng : ℚ) :
    w.is_inside lat lng = true ↔
      (w.south_lat < lat ∧ lat < w.north_lat ∧ w.west_lng < lng ∧ lng < w.east_lng) := by
  simp [WindowBound.is_inside, and_assoc]

theorem errList_checkStrField_locs (fs : List (String × JVal)) (name : String) :
    (errList (checkStrField fs name)).map (fun err => err.loc) =
      if exceptOk (checkStrField fs name) then [] else [[name]] := by
  rcases hl : lookupField fs name with _ | v
  · simp [checkStrField, hl, errList, exceptOk]
  · rcases v with _ | b | q | s | a | o <;> simp [checkStrField, hl, errList, exceptOk]

theorem errList_checkFloatField_locs (pre : List String) (fs : List (String × JVal))
    (name : String) :
    (errList (checkFloatField pre fs name)).map (fun err => err.loc) =
      if exceptOk (checkFloatField pre fs name) then [] else [pre ++ [name]] := by
  rcases hl : lookupField fs name with _ | v
  · simp [checkFloatField, hl, errList, exceptOk]
  · rcases hc : floatCoerce v with _ | q <;> simp [checkFloatField, hl, hc, errList, exceptOk]

theorem busErrors_locs (fs : List (String × JVal)) :
    (busErrors fs).map (fun err => err.loc) =
      (bus_offending_fields fs).map (fun n => [n]) := by
  simp only [busErrors, bus_offending_fields, List.map_append, errList_checkStrField_locs,
    errList_checkFloatField_locs, apply_ite (List.map (fun (n : String) => [n]))]
  simp

theorem Bus.parse_obj_error_eq (fs : List (String × JVal)) (E : List ErrorEntry)
    (h : Bus.parse_obj (.jobj fs) = .error E) : E = busErrors fs := by
  simp only [Bus.parse_obj] at h
  rcases h1 : checkStrField fs "busId" with e1 | s1 <;>
    rcases h2 : checkFloatField [] fs "lat" with e2 | q2 <;>
      rcases h3 : checkFloatField [] fs "lng" with e3 | q3 <;>
        rcases h4 : checkStrField fs "route" with e4 | s4 <;>
          rw [h1, h2, h3, h4] at h <;> simp at h <;> exact h.symm

theorem validate_window_bounds_pair (frame : Option JVal) :
    (∃ nw, validate_window_bounds frame = (some nw, none)) ∨
      (∃ errs, validate_window_bounds frame = (none, some (format_errors errs))) := by
  rcases frame with _ | v
  · exact .inr ⟨[jsonDecodeError], rfl⟩
  · rcases hp : BrowserWindowMessage.parse_obj v with errs | m
    · exact .inr ⟨errs, by simp [validate_window_bounds, hp]⟩
    · exact .inl ⟨m.data, by simp [validate_window_bounds, hp]⟩

theorem listen_to_browser_step_invalid (w : WindowBound) (frame : Option JVal)
    (e : ErrorsMessage) (h : (validate_window_bounds frame).2 = some e) :
    listen_to_browser_step w frame = (w, some e) := by
  rcases hv : validate_window_bounds frame with ⟨n, r⟩
  rw [hv] at h
  simp only at h
  subst h
  simp [listen_to_browser_step, hv]

theorem listen_to_browser_step_valid (w : WindowBound) (frame : Option JVal)
    (nw : WindowBound) (h : (validate_window_bounds frame).1 = some nw) :
    listen_to_browser_step w frame =
      (w.update nw.north_lat nw.south_lat nw.west_lng nw.east_lng, none) := by
  rcases validate_window_bounds_pair frame with ⟨n, hn⟩ | ⟨errs, he⟩
  · rw [hn] at h
    simp only [Option.some.injEq] at h
    subst h
    simp [listen_to_browser_step, hn]
  · rw [he] at h
    simp at h

theorem WindowBound.update_eq (w nw : WindowBound) :
    w.update nw.north_lat nw.south_lat nw.west_lng nw.east_lng = nw := rfl

theorem checkMsgType_not_newBounds (fs : List (String × JVal))
    (h : msgTypeIsNewBounds fs = false) :
    ∃ m, checkMsgType fs = .error m ∧ m.loc = ["msgType"] := by
  rcases hl : lookupField fs "msgType" with _ | v
  · exact ⟨{ loc := ["msgType"], msg := "field required", type := "value_error.missing" },
      by simp [checkMsgType, hl], rfl⟩
  · have wrong : ∀ u : JVal, (∀ s : String, u = .jstr s → ¬(s = "newBounds")) →
        lookupField fs "msgType" = some u →
        checkMsgType fs =
          .error { loc := ["msgType"], msg := "Wrong message type", type := "value_error" } := by
      intro u hu hlu
      rcases u with _ | b | q | s | a | o <;> simp [checkMsgType, hlu]
      exact hu s rfl
    rcases v with _ | b | q | s | a | o
    · exact ⟨_, wrong _ (by intro s hs; cases hs) hl, rfl⟩
    · exact ⟨_, wrong _ (by intro s hs; cases hs) hl, rfl⟩
    · exact ⟨_, wrong _ (by intro s hs; cases hs) hl, rfl⟩
    · have hs : ¬(s = "newBounds") := by
        simpa [msgTypeIsNewBounds, hl] using h
      exact ⟨_, wrong _ (by intro t ht; cases ht; exact hs) hl, rfl⟩
    · exact ⟨_, wrong _ (by intro s hs; cases hs) hl, rfl⟩
    · exact ⟨_, wrong _ (by intro s hs; cases hs) hl, rfl⟩

theorem BrowserWindowMessage.parse_obj_msgType_error (fs : List (String × JVal))
    (m : ErrorEntry) (hm : checkMsgType fs = .error m) :
    BrowserWindowMessage.parse_obj (.jobj fs) =
      .error (m :: dataErrList (checkWindowData fs)) := by
  rcases hd : checkWindowData fs with es | d <;>
    simp [BrowserWindowMessage.parse_obj, hm, hd, errList, dataErrList]

theorem handle_bus_run_length (st : BusStore) (frames : List (Option JVal)) :
    (handle_bus_run st frames).2.length =
      (frames.filter (fun f => ((validate_bus f).2).isSome)).length := by
  induction frames generalizing st with
  | nil => rfl
  | cons f fs ih =>
    rcases hv : validate_bus f with ⟨b, r⟩
    rcases r with _ | e
    · rcases b with _ | bus
      · simp [handle_bus_run, handle_bus_step, hv, List.filter_cons, ih]
      · simp [handle_bus_run, handle_bus_step, hv, List.filter_cons, ih]
    · simp [handle_bus_run, handle_bus_step, hv, List.filter_cons, ih]

theorem listen_to_browser_run_window (w : WindowBound) (frames : List (Option JVal)) :
    (listen_to_browser_run w frames).1 = (last_validated_window frames).getD w := by
  induction frames generalizing w with
  | nil => rfl
  | cons f fs ih =>
    rcases hlv : last_validated_window fs with _ | nw
    · rcases validate_window_bounds_pair f with ⟨n, hn⟩ | ⟨errs, he⟩
      · have hstep : listen_to_browser_step w f =
            (w.update n.north_lat n.south_lat n.west_lng n.east_lng, none) :=
          listen_to_browser_step_valid w f n (by rw [hn])
        simp [listen_to_browser_run, hstep, ih, last_validated_window, hlv, hn,
          WindowBound.update_eq]
      · have hstep := listen_to_browser_step_invalid w f (format_errors errs) (by rw [he])
        simp [listen_to_browser_run, hstep, ih, last_validated_window, hlv, he]
    · simp [listen_to_browser_run, ih, last_validated_window, hlv]

theorem cycle_nth_range (n j : ℕ) (h : 0 < n) : cycle_nth (List.range n) j = j % n := by
  have hj : j % n < n := Nat.mod_lt _ h
  simp [cycle_nth, List.getD_eq_getElem?_getD, List.getElem?_range hj]

/-! ## Claims -/

/-- C1: the broadcaster's viewport filter is a strict-inequality rectangle
test: a stored bus is kept in the `Buses` message iff
`south_lat < lat < north_lat` and `west_lng < lng < east_lng`; a bus with
`lat` exactly `north_lat` is excluded; the midpoint of a non-degenerate
rectangle is included. -/
theorem c1_viewport_filter_strict :
    (∀ (w : WindowBound) (st : BusStore) (bus : Bus),
        bus ∈ (tell_to_browser_msg w st).buses ↔
          bus ∈ st.map Prod.snd ∧ w.south_lat < bus.lat ∧ bus.lat < w.north_lat ∧
            w.west_lng < bus.lng ∧ bus.lng < w.east_lng) ∧
    (∀ (w : WindowBound) (bus : Bus), bus.lat = w.north_lat →
        w.is_bus_inside bus = false) ∧
    (∀ (w : WindowBound) (bid rt : String),
        w.south_lat < w.north_lat → w.west_lng < w.east_lng →
          w.is_bus_inside
              { busId := bid, lat := (w.north_lat + w.south_lat) / 2,
                lng := (w.west_lng + w.east_lng) / 2, route := rt } = true) := by
  refine ⟨?_, ?_, ?_⟩
  · intro w st bus
    simp [tell_to_browser_msg, List.mem_filter, WindowBound.is_bus_inside, is_inside_iff,
      and_assoc]
  · intro w bus h
    simp [WindowBound.is_bus_inside, WindowBound.is_inside, h, lt_irrefl]
  · intro w bid rt h1 h2
    have a1 : w.south_lat < (w.north_lat + w.south_lat) / 2 := by linarith
    have a2 : (w.north_lat + w.south_lat) / 2 < w.north_lat := by linarith
    have a3 : w.west_lng < (w.west_lng + w.east_lng) / 2 := by linarith
    have a4 : (w.west_lng + w.east_lng) / 2 < w.east_lng := by linarith
    simp [WindowBound.is_bus_inside, WindowBound.is_inside, a1, a2, a3, a4]

/-- Witness for C1 at a concrete viewport: a bus exactly on the northern
border is dropped and the midpoint bus is kept. -/
theorem c1_viewport_filter_strict_witness :
    (WindowBound.mk 55 54 37 38).is_bus_inside
        { busId := "b", lat := 55, lng := 75 / 2, route := "r" } = false ∧
      (WindowBound.mk 55 54 37 38).is_bus_inside
        { busId := "b", lat := (55 + 54) / 2, lng := (37 + 38) / 2, route := "r" } = true :=
  ⟨c1_viewport_filter_strict.2.1 (WindowBound.mk 55 54 37 38)
      { busId := "b", lat := 55, lng := 75 / 2, route := "r" } rfl,
    c1_viewport_filter_strict.2.2 (WindowBound.mk 55 54 37 38) "b" "r"
      (by norm_num) (by norm_num)⟩

/-- C3: a valid position message is stored wholesale under its `busId` with
exactly the message's fields, and a second valid message with the same
`busId` fully replaces the first entry. -/
theorem c3_valid_bus_upsert (st : BusStore) (bid rt rt2 : String) (la ln la2 ln2 : ℚ) :
    validate_bus (some (.jobj [("busId", .jstr bid), ("lat", .jnum la), ("lng", .jnum ln),
        ("route", .jstr rt)]))
      = (some { busId := bid, lat := la, lng := ln, route := rt }, none) ∧
    storeLookup (handle_bus_step st (some (.jobj [("busId", .jstr bid), ("lat", .jnum la),
        ("lng", .jnum ln), ("route", .jstr rt)]))).1 bid
      = some { busId := bid, lat := la, lng := ln, route := rt } ∧
    storeLookup (handle_bus_step
        (handle_bus_step st (some (.jobj [("busId", .jstr bid), ("lat", .jnum la),
          ("lng", .jnum ln), ("route", .jstr rt)]))).1
        (some (.jobj [("busId", .jstr bid), ("lat", .jnum la2), ("lng", .jnum ln2),
          ("route", .jstr rt2)]))).1 bid
      = some { busId := bid, lat := la2, lng := ln2, route := rt2 } := by
  have hv1 : validate_bus (some (.jobj [("busId", .jstr bid), ("lat", .jnum la),
      ("lng", .jnum ln), ("route", .jstr rt)]))
      = (some { busId := bid, lat := la, lng := ln, route := rt }, none) := rfl
  have hv2 : validate_bus (some (.jobj [("busId", .jstr bid), ("lat", .jnum la2),
      ("lng", .jnum ln2), ("route", .jstr rt2)]))
      = (some { busId := bid, lat := la2, lng := ln2, route := rt2 }, none) := rfl
  refine ⟨hv1, ?_, ?_⟩
  · rw [handle_bus_step_valid st _ _ (by rw [hv1])]
    exact storeLookup_storeUpsert st bid _
  · rw [handle_bus_step_valid _ _ _ (by rw [hv2])]
    exact storeLookup_storeUpsert _ bid _

/-- C4 counterexample: the claim says a present-but-empty `busId` fails
validation and is not stored; in fact `busId: str` accepts the empty string,
so the message validates and is written to the store under key `""`. -/
theorem c4_empty_busid_counterexample :
    validate_bus (some (.jobj [("busId", .jstr ""), ("lat", .jnum 50), ("lng", .jnum 30),
        ("route", .jstr "7")]))
      = (some { busId := "", lat := 50, lng := 30, route := "7" }, none) ∧
    handle_bus_step [] (some (.jobj [("busId", .jstr ""), ("lat", .jnum 50), ("lng", .jnum 30),
        ("route", .jstr "7")]))
      = ([("", { busId := "", lat := 50, lng := 30, route := "7" })], none) :=
  ⟨rfl, rfl⟩

/-- C4 (amended): the position validator requires `busId` to be a string but
does not require it to be non-empty: a message whose `busId` equals `""`
passes validation with no error and is applied to the Position Store under
the empty-string key. -/
theorem c4_empty_busid_accepted (st : BusStore) (la ln : ℚ) (rt : String) :
    validate_bus (some (.jobj [("busId", .jstr ""), ("lat", .jnum la), ("lng", .jnum ln),
        ("route", .jstr rt)]))
      = (some { busId := "", lat := la, lng := ln, route := rt }, none) ∧
    storeLookup (handle_bus_step st (some (.jobj [("busId", .jstr ""), ("lat", .jnum la),
        ("lng", .jnum ln), ("route", .jstr rt)]))).1 ""
      = some { busId := "", lat := la, lng := ln, route := rt } := by
  have hv : validate_bus (some (.jobj [("busId", .jstr ""), ("lat", .jnum la),
      ("lng", .jnum ln), ("route", .jstr rt)]))
      = (some { busId := "", lat := la, lng := ln, route := rt }, none) := rfl
  refine ⟨hv, ?_⟩
  rw [handle_bus_step_valid st _ _ (by rw [hv])]
  exact storeLookup_storeUpsert st "" _

/-- C7: a viewer that never sends a viewport update has the all-zero
viewport installed by `handle_browser`, and under the strict filter every
periodic `Buses` message it receives carries an empty list, whatever the
store holds. -/
theorem c7_default_viewport_empty (st : BusStore) :
    tell_to_browser_msg initial_window_boundaries st = { msgType := "Buses", buses := [] } := by
  have hfalse : ∀ bus : Bus, initial_window_boundaries.is_bus_inside bus = false := by
    intro bus
    have hni : ¬(initial_window_boundaries.is_inside bus.lat bus.lng = true) := by
      rw [is_inside_iff]
      rintro ⟨hs, hn, -, -⟩
      simp only [initial_window_boundaries] at hs hn
      linarith
    simpa [WindowBound.is_bus_inside] using hni
  unfold tell_to_browser_msg
  congr 1
  rw [List.filter_eq_nil_iff]
  intro bus hmem
  simp [hfalse bus]

/-- C10: a position message whose `lat`/`lng` is a string holding a numeric
value is accepted, coerced to the number by Python `float`, and the coerced
position is stored. -/
theorem c10_numeric_string_coerced (st : BusStore) (bid rt slat slng : String) (qla qln : ℚ)
    (hla : pyFloat? slat = some qla) (hln : pyFloat? slng = some qln) :
    validate_bus (some (.jobj [("busId", .jstr bid), ("lat", .jstr slat), ("lng", .jstr slng),
        ("route", .jstr rt)]))
      = (some { busId := bid, lat := qla, lng := qln, route := rt }, none) ∧
    storeLookup (handle_bus_step st (some (.jobj [("busId", .jstr bid), ("lat", .jstr slat),
        ("lng", .jstr slng), ("route", .jstr rt)]))).1 bid
      = some { busId := bid, lat := qla, lng := qln, route := rt } := by
  have llat : lookupField [("busId", JVal.jstr bid), ("lat", JVal.jstr slat),
      ("lng", JVal.jstr slng), ("route", JVal.jstr rt)] "lat" = some (.jstr slat) := rfl
  have llng : lookupField [("busId", JVal.jstr bid), ("lat", JVal.jstr slat),
      ("lng", JVal.jstr slng), ("route", JVal.jstr rt)] "lng" = some (.jstr slng) := rfl
  have cbus : checkStrField [("busId", JVal.jstr bid), ("lat", JVal.jstr slat),
      ("lng", JVal.jstr slng), ("route", JVal.jstr rt)] "busId" = .ok bid := rfl
  have crt : checkStrField [("busId", JVal.jstr bid), ("lat", JVal.jstr slat),
      ("lng", JVal.jstr slng), ("route", JVal.jstr rt)] "route" = .ok rt := rfl
  have clat : checkFloatField [] [("busId", JVal.jstr bid), ("lat", JVal.jstr slat),
      ("lng", JVal.jstr slng), ("route", JVal.jstr rt)] "lat" = .ok qla := by
    simp [checkFloatField, llat, floatCoerce, hla]
  have clng : checkFloatField [] [("busId", JVal.jstr bid), ("lat", JVal.jstr slat),
      ("lng", JVal.jstr slng), ("route", JVal.jstr rt)] "lng" = .ok qln := by
    simp [checkFloatField, llng, floatCoerce, hln]
  have hv : validate_bus (some (.jobj [("busId", .jstr bid), ("lat", .jstr slat),
      ("lng", .jstr slng), ("route", .jstr rt)]))
      = (some { busId := bid, lat := qla, lng := qln, route := rt }, none) := by
    simp [validate_bus, Bus.parse_obj, cbus, crt, clat, clng]
  refine ⟨hv, ?_⟩
  rw [handle_bus_step_valid st _ _ (by rw [hv])]
  exact storeLookup_storeUpsert st bid _

/-- Witness for C10 at `lat = "55.5"`, `lng = "30"`. -/
theorem c10_numeric_string_coerced_witness :
    validate_bus (some (.jobj [("busId", .jstr "b1"), ("lat", .jstr "55.5"),
        ("lng", .jstr "30"), ("route", .jstr "r")]))
      = (some { busId := "b1", lat := 111 / 2, lng := 30, route := "r" }, none) ∧
    storeLookup (handle_bus_step [] (some (.jobj [("busId", .jstr "b1"), ("lat", .jstr "55.5"),
        ("lng", .jstr "30"), ("route", .jstr "r")]))).1 "b1"
      = some { busId := "b1", lat := 111 / 2, lng := 30, route := "r" } :=
  c10_numeric_string_coerced [] "b1" "r" "55.5" "30" (111 / 2) 30
    (by
      have h : pyFloat? "55.5" = some ((55 : ℚ) + 5 / 10 ^ 1) := rfl
      rw [h]
      norm_num)
    (by
      have h : pyFloat? "30" = some ((30 : ℕ) : ℚ) := rfl
      rw [h]
      norm_num)

/-- C2: every invalid position message leaves the store unchanged and is
answered with an Errors message; on a decoded object the reply's error
locations name exactly the offending fields, in field order. -/
theorem c2_invalid_bus_rejected :
    (∀ (st : BusStore) (frame : Option JVal) (e : ErrorsMessage),
        (validate_bus frame).2 = some e →
          handle_bus_step st frame = (st, some e) ∧ e.msgType = "Errors") ∧
    (∀ (fs : List (String × JVal)) (e : ErrorsMessage),
        (validate_bus (some (.jobj fs))).2 = some e →
          e.errors.map (fun err => err.loc) =
            (bus_offending_fields fs).map (fun n => [n])) := by
  constructor
  · intro st frame e h
    refine ⟨handle_bus_step_invalid st frame e h, ?_⟩
    rcases validate_bus_pair frame with ⟨bus, hb⟩ | ⟨errs, he⟩
    · rw [hb] at h
      simp at h
    · rw [he] at h
      simp only [Option.some.injEq] at h
      rw [← h]
      rfl
  · intro fs e h
    rcases hp : Bus.parse_obj (.jobj fs) with E | bus
    · have hE : E = busErrors fs := Bus.parse_obj_error_eq fs E hp
      have he : format_errors E = e := by
        simpa [validate_bus, hp] using h
      rw [← he, format_errors_errors, hE, busErrors_locs]
    · simp [validate_bus, hp] at h

/-- Witness for C2: a message with a numeric `busId` (which pydantic coerces
to a string, so it is not an offending field) and a non-numeric `lat` leaves
the store unchanged and is answered with exactly one error, naming `lat`. -/
theorem c2_invalid_bus_rejected_witness :
    (handle_bus_step [("x", { busId := "x", lat := 1, lng := 2, route := "r" })]
        (some (.jobj [("busId", .jnum 5), ("lat", .jstr "abc"), ("lng", .jnum 1),
          ("route", .jstr "r")]))
      = ([("x", { busId := "x", lat := 1, lng := 2, route := "r" })],
          some { msgType := "Errors", errors :=
            [{ loc := ["lat"], msg := "value is not a valid float",
               type := "type_error.float" }] }) ∧
      ({ msgType := "Errors", errors :=
            [{ loc := ["lat"], msg := "value is not a valid float",
               type := "type_error.float" }] } : ErrorsMessage).msgType = "Errors") ∧
    ({ msgType := "Errors", errors :=
          [{ loc := ["lat"], msg := "value is not a valid float",
             type := "type_error.float" }] } : ErrorsMessage).errors.map (fun err => err.loc)
      = (bus_offending_fields [("busId", .jnum 5), ("lat", .jstr "abc"), ("lng", .jnum 1),
          ("route", .jstr "r")]).map (fun n => [n]) :=
  ⟨c2_invalid_bus_rejected.1 [("x", { busId := "x", lat := 1, lng := 2, route := "r" })]
      (some (.jobj [("busId", .jnum 5), ("lat", .jstr "abc"), ("lng", .jnum 1),
        ("route", .jstr "r")]))
      { msgType := "Errors", errors :=
          [{ loc := ["lat"], msg := "value is not a valid float",
             type := "type_error.float" }] } rfl,
    c2_invalid_bus_rejected.2 [("busId", .jnum 5), ("lat", .jstr "abc"), ("lng", .jnum 1),
        ("route", .jstr "r")]
      { msgType := "Errors", errors :=
          [{ loc := ["lat"], msg := "value is not a valid float",
             type := "type_error.float" }] } rfl⟩

/-- C8: an undecodable (non-JSON) frame and every parseable-but-invalid
message are answered with an Errors-shaped reply on the same connection,
on the bus port and the browser port alike, and no frame's content ends the
receive loop: over any frame sequence, each invalid frame yields exactly one
Errors reply while every frame is processed. -/
theorem c8_malformed_input_reported :
    (∀ st : BusStore, handle_bus_step st none =
        (st, some (format_errors [jsonDecodeError]))) ∧
    (format_errors [jsonDecodeError]).msgType = "Errors" ∧
    (format_errors [jsonDecodeError]).errors = [jsonDecodeError] ∧
    (∀ w : WindowBound, listen_to_browser_step w none =
        (w, some (format_errors [jsonDecodeError]))) ∧
    (∀ (st : BusStore) (frame : Option JVal) (e : ErrorsMessage),
        (validate_bus frame).2 = some e →
          handle_bus_step st frame = (st, some e) ∧ e.msgType = "Errors") ∧
    (∀ (st : BusStore) (frames : List (Option JVal)),
        (handle_bus_run st frames).2.length =
          (frames.filter (fun f => ((validate_bus f).2).isSome)).length) := by
  refine ⟨fun st => rfl, rfl, rfl, fun w => rfl, ?_, handle_bus_run_length⟩
  intro st frame e h
  refine ⟨handle_bus_step_invalid st frame e h, ?_⟩
  rcases validate_bus_pair frame with ⟨bus, hb⟩ | ⟨errs, he⟩
  · rw [hb] at h
    simp at h
  · rw [he] at h
    simp only [Option.some.injEq] at h
    rw [← h]
    rfl

/-- Witness for C8: a parseable frame of the wrong shape (an empty object)
is answered with one error per missing field and the store stays as it was. -/
theorem c8_malformed_input_reported_witness :
    handle_bus_step [] (some (.jobj []))
      = ([], some { msgType := "Errors", errors :=
          [{ loc := ["busId"], msg := "field required", type := "value_error.missing" },
           { loc := ["lat"], msg := "field required", type := "value_error.missing" },
           { loc := ["lng"], msg := "field required", type := "value_error.missing" },
           { loc := ["route"], msg := "field required", type := "value_error.missing" }] }) ∧
    ({ msgType := "Errors", errors :=
          [{ loc := ["busId"], msg := "field required", type := "value_error.missing" },
           { loc := ["lat"], msg := "field required", type := "value_error.missing" },
           { loc := ["lng"], msg := "field required", type := "value_error.missing" },
           { loc := ["route"], msg := "field required", type := "value_error.missing" }] }
        : ErrorsMessage).msgType = "Errors" :=
  c8_malformed_input_reported.2.2.2.2.1 [] (some (.jobj []))
    { msgType := "Errors", errors :=
        [{ loc := ["busId"], msg := "field required", type := "value_error.missing" },
          { loc := ["lat"], msg := "field required", type := "value_error.missing" },
          { loc := ["lng"], msg := "field required", type := "value_error.missing" },
          { loc := ["route"], msg := "field required", type := "value_error.missing" }] } rfl

/-- C5: a viewer's viewport always equals the most recently validated
update: an invalid frame is answered with an error and leaves the prior
bounds completely unchanged, a valid one replaces all four bounds wholesale,
and over any frame sequence the final bounds are those of the last validated
update (or the initial bounds when none was validated). -/
theorem c5_viewport_latest_validated :
    (∀ (w : WindowBound) (frame : Option JVal) (e : ErrorsMessage),
        (validate_window_bounds frame).2 = some e →
          listen_to_browser_step w frame = (w, some e)) ∧
    (∀ (w : WindowBound) (frame : Option JVal) (nw : WindowBound),
        (validate_window_bounds frame).1 = some nw →
          listen_to_browser_step w frame = (nw, none)) ∧
    (∀ (w : WindowBound) (frames : List (Option JVal)),
        (listen_to_browser_run w frames).1 = (last_validated_window frames).getD w) := by
  refine ⟨listen_to_browser_step_invalid, ?_, listen_to_browser_run_window⟩
  intro w frame nw h
  rw [listen_to_browser_step_valid w frame nw h, WindowBound.update_eq]

/-- Witness for C5: a non-JSON frame keeps the bounds, a valid `newBounds`
frame overwrites all four of them. -/
theorem c5_viewport_latest_validated_witness :
    listen_to_browser_step (WindowBound.mk 9 9 9 9) none
      = (WindowBound.mk 9 9 9 9, some (format_errors [jsonDecodeError])) ∧
    listen_to_browser_step (WindowBound.mk 9 9 9 9)
        (some (.jobj [("msgType", .jstr "newBounds"),
          ("data", .jobj [("north_lat", .jnum 2), ("south_lat", .jnum 1),
            ("west_lng", .jnum 3), ("east_lng", .jnum 4)])]))
      = (WindowBound.mk 2 1 3 4, none) :=
  ⟨c5_viewport_latest_validated.1 (WindowBound.mk 9 9 9 9) none
      (format_errors [jsonDecodeError]) rfl,
    c5_viewport_latest_validated.2.1 (WindowBound.mk 9 9 9 9)
      (some (.jobj [("msgType", .jstr "newBounds"),
        ("data", .jobj [("north_lat", .jnum 2), ("south_lat", .jnum 1),
          ("west_lng", .jnum 3), ("east_lng", .jnum 4)])]))
      (WindowBound.mk 2 1 3 4) rfl⟩

/-- C6: viewport-update validation demands `msgType` equal to the literal
string `"newBounds"`: whenever the field is missing or holds any other
value, the reply is an Errors message with an error located at `msgType`,
and the viewport is left unchanged. -/
theorem c6_msgtype_literal (w : WindowBound) (fs : List (String × JVal))
    (h : msgTypeIsNewBounds fs = false) :
    ∃ e, (validate_window_bounds (some (.jobj fs))).2 = some e ∧
      e.errors.any (fun err => decide (err.loc = ["msgType"])) = true ∧
      listen_to_browser_step w (some (.jobj fs)) = (w, some e) := by
  obtain ⟨m, hm, hloc⟩ := checkMsgType_not_newBounds fs h
  have hp := BrowserWindowMessage.parse_obj_msgType_error fs m hm
  refine ⟨format_errors (m :: dataErrList (checkWindowData fs)), ?_, ?_, ?_⟩
  · simp [validate_window_bounds, hp]
  · simp [format_errors_errors, List.any_cons, hloc]
  · exact listen_to_browser_step_invalid w _ _ (by simp [validate_window_bounds, hp])

/-- Witness for C6 at a wrong `msgType` literal and at a frame missing
`msgType` altogether. -/
theorem c6_msgtype_literal_witness :
    ∃ e, (validate_window_bounds (some (.jobj [("msgType", .jstr "notNewBounds"),
        ("data", .jobj [("north_lat", .jnum 2), ("south_lat", .jnum 1),
          ("west_lng", .jnum 3), ("east_lng", .jnum 4)])]))).2 = some e ∧
      e.errors.any (fun err => decide (err.loc = ["msgType"])) = true ∧
      listen_to_browser_step (WindowBound.mk 9 9 9 9)
          (some (.jobj [("msgType", .jstr "notNewBounds"),
            ("data", .jobj [("north_lat", .jnum 2), ("south_lat", .jnum 1),
              ("west_lng", .jnum 3), ("east_lng", .jnum 4)])]))
        = (WindowBound.mk 9 9 9 9, some e) :=
  c6_msgtype_literal (WindowBound.mk 9 9 9 9)
    [("msgType", .jstr "notNewBounds"),
      ("data", .jobj [("north_lat", .jnum 2), ("south_lat", .jnum 1),
        ("west_lng", .jnum 3), ("east_lng", .jnum 4)])] rfl

/-- C9: `main` hands the `j`-th spawned bus the `j`-th channel drawn from
`cycle(send_channels)`: with a pool of `n` channels the assignment is
round-robin (`j % n`), every assigned slot is a real pool member, each bus is
assigned exactly one slot, and every message `run_bus` emits goes to the one
channel fixed at spawn time, tagged with that bus's id and route. -/
theorem c9_round_robin_assignment (routeNames : List String) (buses_per_route n : ℕ)
    (pfx : String) (h : 0 < n) :
    main_assignment routeNames buses_per_route n pfx =
      (spawn_order routeNames buses_per_route pfx).enum.map (fun p => (p.2, p.1 % n)) ∧
    (∀ bus slot, (bus, slot) ∈ main_assignment routeNames buses_per_route n pfx →
        slot < n) ∧
    (∀ (ch : ℕ) (bus_id route_name : String) (route : List (ℚ × ℚ))
        (start_offset k : ℕ) (pr : ℕ × BusMessage),
        run_bus_emit ch bus_id route_name route start_offset k = some pr →
          pr.1 = ch ∧ pr.2.busId = bus_id ∧ pr.2.route = route_name) := by
  have hc : ∀ j, cycle_nth (List.range n) j = j % n := fun j => cycle_nth_range n j h
  refine ⟨?_, ?_, ?_⟩
  · simp [main_assignment, hc]
  · intro bus slot hmem
    simp only [main_assignment, List.mem_map] at hmem
    obtain ⟨p, hp, hpe⟩ := hmem
    rw [hc p.1] at hpe
    have hslot : p.1 % n = slot := congrArg Prod.snd hpe
    rw [← hslot]
    exact Nat.mod_lt _ h
  · intro ch bus_id route_name route start_offset k pr hpr
    rcases hco : run_bus_coord route start_offset k with _ | c
    · simp [run_bus_emit, hco] at hpr
    · simp only [run_bus_emit, hco, Option.map_some', Option.some.injEq] at hpr
      rw [← hpr]
      exact ⟨rfl, rfl, rfl⟩

/-- Witness for C9: two routes, two buses per route, three channel slots:
the four buses are assigned slots 0, 1, 2, 0 in spawn order. -/
theorem c9_round_robin_assignment_witness :
    main_assignment ["120", "670k"] 2 3 "" =
      (spawn_order ["120", "670k"] 2 "").enum.map (fun p => (p.2, p.1 % 3)) ∧
    main_assignment ["120", "670k"] 2 3 "" =
      [("120-0", 0), ("120-1", 1), ("670k-0", 2), ("670k-1", 0)] :=
  ⟨(c9_round_robin_assignment ["120", "670k"] 2 3 "" (by decide)).1, by decide⟩
